import Mathlib

/-!
Verification of the Term library (src/unix.rs and src/color.rs) against its
specification.  The POSIX syscall layer is shallowly embedded: a `Device`
value stands for the line-discipline state of the process's controlling
terminal (the termios of standard input), `tcgetattr` succeeds exactly when
`isTty` holds, and `tcsetattr` records the optional-action policy it was
invoked with.  All machine integers (`tcflag_t` = u32, u8 cells of the
control-character table) are modelled as `Nat`; 32-bit bitwise complement is
made explicit as `NOT32`.
-/

namespace Term

/-- The termios structure: four flag groups, line-discipline byte,
control-character table (`NCCS = 32` cells on Linux) and the two speeds.
Mirrors `libc::termios` as used by src/unix.rs. -/
@[ext]
structure Termios where
  c_iflag : Nat
  c_oflag : Nat
  c_cflag : Nat
  c_lflag : Nat
  c_line : Nat
  c_cc : List Nat
  c_ispeed : Nat
  c_ospeed : Nat
  deriving Repr, DecidableEq

/-- State of the device behind standard input, together with the process
environment.  `isTty` tells whether attribute reads succeed (`tcgetattr`
returns 0); `attrs` is the device's current line-discipline configuration,
meaningful only when `isTty`; `termEnv` is the value of the `TERM`
environment variable when set; `lastAction` records the
`optional_actions` argument of the most recent `tcsetattr` call. -/
@[ext]
structure Device where
  isTty : Bool
  attrs : Termios
  termEnv : Option String
  lastAction : Option Nat
  deriving Repr, DecidableEq

-- c_lflag bits (src/unix.rs lines 186-201)
def ISIG : Nat := 0o000001
def ICANON : Nat := 0o000002
def ECHO : Nat := 0o000010

-- c_oflag bits (src/unix.rs line 204)
def OPOST : Nat := 0x00000001

-- c_iflag bits (src/unix.rs line 207; libc::IXON = 0o2000 on Linux)
def IXON : Nat := 0o002000

-- TCSETATTR optional-action policies (src/unix.rs lines 221-223)
def TCSANOW : Nat := 0
def TCSADRAIN : Nat := 1
def TCSAFLUSH : Nat := 2

/-- Bitwise complement of a 32-bit flag word, as produced by Rust's `!` on a
`tcflag_t`. -/
def NOT32 (m : Nat) : Nat := (2 ^ 32 - 1) ^^^ m

/-- `tcsetattr(stdin, act, &t)`: on a terminal the device takes the new
configuration; on a non-terminal the call fails with ENOTTY and changes
nothing.  Either way the requested action policy is recorded. -/
def tcsetattr (act : Nat) (t : Termios) (d : Device) : Device :=
  { d with attrs := if d.isTty then t else d.attrs, lastAction := some act }

/-- The empty `TermInfo` struct of src/unix.rs. -/
structure TermInfo where
  deriving Repr, DecidableEq

/-- The `Terminal` struct of src/unix.rs: captured flag groups,
control-character table, line byte and speeds, plus the `TERM` name and the
two session booleans. -/
@[ext]
structure Terminal where
  term_name : String
  info : TermInfo
  c_iflags : Nat
  c_oflags : Nat
  c_cflags : Nat
  c_lflags : Nat
  c_cc : List Nat
  c_line : Nat
  c_ispeed : Nat
  c_ospeed : Nat
  alt_buffer : Bool
  cursor_visable : Bool
  deriving Repr, DecidableEq

/-- `Terminal::default()` (src/unix.rs lines 78-120): read the attributes of
standard input; on success copy every termios field into the snapshot, on
failure fall back to all-zero fields; `term_name` comes from `$TERM` (empty
when unset) in both branches; `alt_buffer` starts false and
`cursor_visable` starts true in both branches. -/
def Terminal.default (d : Device) : Terminal :=
  let name := match d.termEnv with
    | some t => t
    | none => ""
  if d.isTty then
    { term_name := name
      info := {}
      c_iflags := d.attrs.c_iflag
      c_oflags := d.attrs.c_oflag
      c_lflags := d.attrs.c_lflag
      c_cflags := d.attrs.c_cflag
      c_line := d.attrs.c_line
      c_cc := d.attrs.c_cc
      c_ispeed := d.attrs.c_ispeed
      c_ospeed := d.attrs.c_ospeed
      alt_buffer := false
      cursor_visable := true }
  else
    { term_name := name
      info := {}
      c_iflags := 0
      c_oflags := 0
      c_lflags := 0
      c_cflags := 0
      c_line := 0
      c_cc := List.replicate 32 0
      c_ispeed := 0
      c_ospeed := 0
      alt_buffer := false
      cursor_visable := true }

/-- `Terminal::cast_to_termios` (src/unix.rs lines 123-134). -/
def Terminal.cast_to_termios (t : Terminal) : Termios :=
  { c_cc := t.c_cc
    c_cflag := t.c_cflags
    c_lflag := t.c_lflags
    c_iflag := t.c_iflags
    c_oflag := t.c_oflags
    c_line := t.c_line
    c_ispeed := t.c_ispeed
    c_ospeed := t.c_ospeed }

/-- `Terminal::toggle_cursor_visable` (src/unix.rs lines 144-152): emit the
hide escape when currently visible, the show escape otherwise, flip the
boolean and return its new value.  The emitted bytes are returned as the
last component. -/
def Terminal.toggle_cursor_visable (t : Terminal) : Terminal × Bool × String :=
  let out := if t.cursor_visable then "\x1b[?25l" else "\x1b[?25h"
  let t2 := { t with cursor_visable := !t.cursor_visable }
  (t2, t2.cursor_visable, out)

/-- `Terminal::toggle_alt_buffer` (src/unix.rs lines 154-163): when inactive,
emit the enter-alternate-buffer and clear escapes; when active, the branch
body is only a comment and nothing is printed.  Flip the boolean and return
its new value. -/
def Terminal.toggle_alt_buffer (t : Terminal) : Terminal × Bool × String :=
  let out := if t.alt_buffer then "" else "\x1b[?1049h\x1b[2J"
  let t2 := { t with alt_buffer := !t.alt_buffer }
  (t2, t2.alt_buffer, out)

/-- `set_term` (src/unix.rs lines 225-231): snapshot the current state via
`Terminal::default`, then `tcsetattr(stdin, TCSANOW, &t.cast_to_termios())`,
returning the prior snapshot. -/
def set_term (t : Terminal) (d : Device) : Terminal × Device :=
  let original := Terminal.default d
  (original, tcsetattr TCSANOW t.cast_to_termios d)

/-- `set_raw` (src/unix.rs lines 235-246): capture the current state via
`Terminal::default`, re-read the attributes into a stack `termios` (the
parameter `uninit` stands for that buffer's uninitialized content, kept
when `tcgetattr` fails), clear `ICANON | ECHO | ISIG` in `c_lflag`, `IXON`
in `c_iflag` and `OPOST` in `c_oflag`, apply with `TCSANOW`, and return the
captured state. -/
def set_raw (uninit : Termios) (d : Device) : Terminal × Device :=
  let t := Terminal.default d
  let tio := if d.isTty then d.attrs else uninit
  let tio := { tio with c_lflag := tio.c_lflag &&& NOT32 (ICANON ||| ECHO ||| ISIG) }
  let tio := { tio with c_iflag := tio.c_iflag &&& NOT32 IXON }
  let tio := { tio with c_oflag := tio.c_oflag &&& NOT32 OPOST }
  (t, tcsetattr TCSANOW tio d)

/-- `set_flags` (src/unix.rs lines 247-278): read the current attributes into
a stack buffer (`uninit` is its content when the read fails), replace each
of the four flag groups by the supplied value when the corresponding
argument is `Some`, keep the just-read value otherwise, and write the
result back with `TCSANOW`. -/
def set_flags (lflags iflags oflags cflags : Option Nat) (uninit : Termios)
    (d : Device) : Device :=
  let t := if d.isTty then d.attrs else uninit
  let t := { t with c_iflag := match iflags with
    | some flag => flag
    | none => t.c_iflag }
  let t := { t with c_lflag := match lflags with
    | some flag => flag
    | none => t.c_lflag }
  let t := { t with c_oflag := match oflags with
    | some flag => flag
    | none => t.c_oflag }
  let t := { t with c_cflag := match cflags with
    | some flag => flag
    | none => t.c_cflag }
  tcsetattr TCSANOW t d

/-- The `winsize` structure filled in by `ioctl(stdout, TIOCGWINSZ, ..)`. -/
structure Winsize where
  ws_row : Nat
  ws_col : Nat
  deriving Repr, DecidableEq

/-- `term_size` (src/unix.rs lines 280-290): `q` is the outcome of the
`TIOCGWINSZ` ioctl on standard output (`none` when the call fails).  Return
`(columns, rows)` only when the ioctl succeeds and both dimensions are
strictly positive; otherwise `none`. -/
def term_size (q : Option Winsize) : Option (Nat × Nat) :=
  match q with
  | some size =>
      if size.ws_col > 0 && size.ws_row > 0 then
        some (size.ws_col, size.ws_row)
      else
        none
  | none => none

end Term

namespace Color

/-- The `Iso` hue enum of src/color.rs. -/
inductive Iso where
  | Black
  | Red
  | Green
  | Yellow
  | Blue
  | Magenta
  | Cyan
  | White
  deriving Repr, DecidableEq

/-- `Iso::to_char` (src/color.rs lines 134-145). -/
def Iso.to_char : Iso → Char
  | Iso.Black => '0'
  | Iso.Red => '1'
  | Iso.Green => '2'
  | Iso.Yellow => '3'
  | Iso.Blue => '4'
  | Iso.Magenta => '5'
  | Iso.Cyan => '6'
  | Iso.White => '7'

/-- The `Color` enum of src/color.rs; u8 payloads are `Fin 256`. -/
inductive Color where
  | Iso (color : Iso) (bright : Bool)
  | Extended (val : Fin 256)
  | Rgb (r : Fin 256) (g : Fin 256) (b : Fin 256)
  | None
  deriving Repr, DecidableEq

/-- The `Foreground` newtype around `Color`. -/
structure Foreground where
  val : Color
  deriving Repr, DecidableEq

/-- `Foreground::to_ansi` (src/color.rs lines 38-47); `format!("{}", n)` on a
u8 is its decimal representation, `Nat.repr`. -/
def Foreground.to_ansi (f : Foreground) : String :=
  match f.val with
  | Color.Iso color bright =>
      "\x1b[" ++ (if bright then "9" else "3") ++ String.singleton color.to_char ++ "m"
  | Color.Extended val => "\x1b[38;5;" ++ Nat.repr val.val ++ "m"
  | Color.Rgb r g b =>
      "\x1b[38;2;" ++ Nat.repr r.val ++ ";" ++ Nat.repr g.val ++ ";" ++ Nat.repr b.val ++ "m"
  | Color.None => ""

/-- The `Background` newtype around `Color`. -/
structure Background where
  val : Color
  deriving Repr, DecidableEq

/-- `Background::to_ansi` (src/color.rs lines 96-105). -/
def Background.to_ansi (b : Background) : String :=
  match b.val with
  | Color.Iso color bright =>
      "\x1b[" ++ (if bright then "10" else "4") ++ String.singleton color.to_char ++ "m"
  | Color.Extended val => "\x1b[48;5;" ++ Nat.repr val.val ++ "m"
  | Color.Rgb r g b =>
      "\x1b[48;2;" ++ Nat.repr r.val ++ ";" ++ Nat.repr g.val ++ ";" ++ Nat.repr b.val ++ "m"
  | Color.None => ""

/-- From the claim's words: the digit of an indexed-8 hue — black=0, red=1,
green=2, yellow=3, blue=4, magenta=5, cyan=6, white=7. -/
def specDigit : Iso → Nat
  | Iso.Black => 0
  | Iso.Red => 1
  | Iso.Green => 2
  | Iso.Yellow => 3
  | Iso.Blue => 4
  | Iso.Magenta => 5
  | Iso.Cyan => 6
  | Iso.White => 7

/-- From the claim's words: expected foreground rendering.  Indexed8 with hue
`h` and bright flag `b` gives `ESC[{9 if b else 3}{d}m`; Indexed256 gives
`ESC[38;5;{n}m`; Rgb gives `ESC[38;2;{r};{g};{b}m`; Unset gives the empty
string. -/
def fgSpec : Color → String
  | Color.Iso h b =>
      "\x1b[" ++ Nat.repr (if b then 9 else 3) ++ Nat.repr (specDigit h) ++ "m"
  | Color.Extended n => "\x1b[38;5;" ++ Nat.repr n.val ++ "m"
  | Color.Rgb r g b =>
      "\x1b[38;2;" ++ Nat.repr r.val ++ ";" ++ Nat.repr g.val ++ ";" ++ Nat.repr b.val ++ "m"
  | Color.None => ""

/-- From the claim's words: expected background rendering.  Indexed8 with hue
`h` and bright flag `b` gives `ESC[{10 if b else 4}{d}m`; Indexed256 gives
`ESC[48;5;{n}m`; Rgb gives `ESC[48;2;{r};{g};{b}m`; Unset gives the empty
string. -/
def bgSpec : Color → String
  | Color.Iso h b =>
      "\x1b[" ++ Nat.repr (if b then 10 else 4) ++ Nat.repr (specDigit h) ++ "m"
  | Color.Extended n => "\x1b[48;5;" ++ Nat.repr n.val ++ "m"
  | Color.Rgb r g b =>
      "\x1b[48;2;" ++ Nat.repr r.val ++ ";" ++ Nat.repr g.val ++ ";" ++ Nat.repr b.val ++ "m"
  | Color.None => ""

end Color

namespace Term

/-! ### Concrete fixtures used by witnesses and counterexamples -/

/-- A sample termios configuration with nonzero bits in every field. -/
def attrsA : Termios :=
  { c_iflag := 0o2473
    c_oflag := 0o5
    c_cflag := 0o277
    c_lflag := 0o105073
    c_line := 0
    c_cc := [3, 28, 127, 21, 4, 0, 1, 0, 17, 19, 26, 0, 18, 15, 23, 22, 0]
    c_ispeed := 15
    c_ospeed := 15 }

/-- The uninitialized content of a stack `termios` buffer in a run. -/
def uninitA : Termios :=
  { c_iflag := 99, c_oflag := 98, c_cflag := 97, c_lflag := 96,
    c_line := 95, c_cc := [94], c_ispeed := 93, c_ospeed := 92 }

/-- A device that is a terminal. -/
def devTty : Device :=
  { isTty := true, attrs := attrsA, termEnv := some "xterm-256color", lastAction := none }

/-- A device that is not a terminal (redirected standard input). -/
def devPipe : Device :=
  { isTty := false, attrs := attrsA, termEnv := some "dumb", lastAction := none }

/-- A sample snapshot to pass to `set_term`. -/
def termA : Terminal :=
  { term_name := "xterm", info := {},
    c_iflags := 1, c_oflags := 2, c_cflags := 3, c_lflags := 4,
    c_cc := [9, 8, 7], c_line := 6, c_ispeed := 5, c_ospeed := 5,
    alt_buffer := false, cursor_visable := true }

/-- A session whose alternate buffer is currently active. -/
def altOnT : Terminal :=
  { term_name := "xterm", info := {},
    c_iflags := 1, c_oflags := 2, c_cflags := 3, c_lflags := 4,
    c_cc := [9, 8, 7], c_line := 6, c_ispeed := 5, c_ospeed := 5,
    alt_buffer := true, cursor_visable := true }

end Term

/-! ### Claims -/

/-- C9: for every Color value and both roles, rendering is a pure function
producing exactly the SGR string given by the spec's table: Indexed8 yields
`ESC[{9|3}{d}m` / `ESC[{10|4}{d}m` with digit d given by black=0 .. white=7,
Indexed256 yields `ESC[38;5;{n}m` / `ESC[48;5;{n}m`, Rgb yields
`ESC[38;2;{r};{g};{b}m` / `ESC[48;2;{r};{g};{b}m`, and Unset yields the
empty string. -/
theorem C9_render_matches_spec (c : Color.Color) :
    Color.Foreground.to_ansi ⟨c⟩ = Color.fgSpec c ∧
    Color.Background.to_ansi ⟨c⟩ = Color.bgSpec c := by
  cases c with
  | Iso h b => cases h <;> cases b <;> exact ⟨rfl, rfl⟩
  | Extended n => exact ⟨rfl, rfl⟩
  | Rgb r g b => exact ⟨rfl, rfl⟩
  | None => exact ⟨rfl, rfl⟩

/-- C8: toggle_cursor_visable emits the hide escape `ESC[?25l` when the
in-memory boolean is true, else the show escape `ESC[?25h`, flips the
boolean and returns the new value; two successive calls restore the boolean
and emit the two complementary escapes in order. -/
theorem C8_toggle_cursor_involution (t : Term.Terminal) :
    t.toggle_cursor_visable.2.2 =
      (if t.cursor_visable then "\x1b[?25l" else "\x1b[?25h") ∧
    t.toggle_cursor_visable.2.1 = !t.cursor_visable ∧
    t.toggle_cursor_visable.1.cursor_visable = !t.cursor_visable ∧
    t.toggle_cursor_visable.1.toggle_cursor_visable.1.cursor_visable =
      t.cursor_visable ∧
    t.toggle_cursor_visable.2.2 ++ t.toggle_cursor_visable.1.toggle_cursor_visable.2.2 =
      (if t.cursor_visable then "\x1b[?25l\x1b[?25h" else "\x1b[?25h\x1b[?25l") := by
  cases hcv : t.cursor_visable <;>
    simp [Term.Terminal.toggle_cursor_visable, hcv]

/-- C10: toggle_cursor_visable changes only the cursor_visable field and
toggle_alt_buffer changes only the alt_buffer field; every flag group, the
control-character table, line byte, speeds, term_name, info and the other
boolean are untouched, and each call returns the new value of the field it
flipped. -/
theorem C10_toggle_frame (t : Term.Terminal) :
    (t.toggle_cursor_visable.1 = { t with cursor_visable := !t.cursor_visable } ∧
     t.toggle_cursor_visable.1.alt_buffer = t.alt_buffer ∧
     t.toggle_cursor_visable.1.c_iflags = t.c_iflags ∧
     t.toggle_cursor_visable.1.c_oflags = t.c_oflags ∧
     t.toggle_cursor_visable.1.c_cflags = t.c_cflags ∧
     t.toggle_cursor_visable.1.c_lflags = t.c_lflags ∧
     t.toggle_cursor_visable.1.c_cc = t.c_cc ∧
     t.toggle_cursor_visable.1.c_line = t.c_line ∧
     t.toggle_cursor_visable.1.c_ispeed = t.c_ispeed ∧
     t.toggle_cursor_visable.1.c_ospeed = t.c_ospeed ∧
     t.toggle_cursor_visable.1.term_name = t.term_name ∧
     t.toggle_cursor_visable.1.info = t.info ∧
     t.toggle_cursor_visable.2.1 = !t.cursor_visable) ∧
    (t.toggle_alt_buffer.1 = { t with alt_buffer := !t.alt_buffer } ∧
     t.toggle_alt_buffer.1.cursor_visable = t.cursor_visable ∧
     t.toggle_alt_buffer.1.c_iflags = t.c_iflags ∧
     t.toggle_alt_buffer.1.c_oflags = t.c_oflags ∧
     t.toggle_alt_buffer.1.c_cflags = t.c_cflags ∧
     t.toggle_alt_buffer.1.c_lflags = t.c_lflags ∧
     t.toggle_alt_buffer.1.c_cc = t.c_cc ∧
     t.toggle_alt_buffer.1.c_line = t.c_line ∧
     t.toggle_alt_buffer.1.c_ispeed = t.c_ispeed ∧
     t.toggle_alt_buffer.1.c_ospeed = t.c_ospeed ∧
     t.toggle_alt_buffer.1.term_name = t.term_name ∧
     t.toggle_alt_buffer.1.info = t.info ∧
     t.toggle_alt_buffer.2.1 = !t.alt_buffer) :=
  ⟨⟨rfl, rfl, rfl, rfl, rfl, rfl, rfl, rfl, rfl, rfl, rfl, rfl, rfl⟩,
   ⟨rfl, rfl, rfl, rfl, rfl, rfl, rfl, rfl, rfl, rfl, rfl, rfl, rfl⟩⟩

/-- C4 (code bug): on a session whose alternate buffer is active,
toggle_alt_buffer emits no bytes at all — not the leave-alternate-screen
escape `ESC[?1049l` the claim requires — though it does flip the boolean
and return the new value; the inactive direction does emit
`ESC[?1049h ESC[2J` as claimed. -/
theorem C4_alt_off_emits_nothing :
    Term.altOnT.alt_buffer = true ∧
    Term.altOnT.toggle_alt_buffer.2.2 = "" ∧
    Term.altOnT.toggle_alt_buffer.2.2 ≠ "\x1b[?1049l" ∧
    Term.altOnT.toggle_alt_buffer.2.1 = false ∧
    Term.termA.alt_buffer = false ∧
    Term.termA.toggle_alt_buffer.2.2 = "\x1b[?1049h\x1b[2J" ∧
    Term.termA.toggle_alt_buffer.2.1 = true := by
  refine ⟨rfl, rfl, ?_, rfl, rfl, rfl, rfl⟩
  decide

/-- C3: when the attribute read of standard input fails (non-terminal
standard input), default construction surfaces no error and yields a
snapshot whose four flag groups, control-character table, line byte and
both speeds are all zero, with term_name taken from `$TERM` when set and
empty otherwise, cursor-visible true and alternate-buffer-active false. -/
theorem C3_default_on_read_failure (d : Term.Device) (h : d.isTty = false) :
    Term.Terminal.default d =
      { term_name := d.termEnv.getD "", info := {},
        c_iflags := 0, c_oflags := 0, c_cflags := 0, c_lflags := 0,
        c_cc := List.replicate 32 0, c_line := 0, c_ispeed := 0, c_ospeed := 0,
        alt_buffer := false, cursor_visable := true } := by
  cases henv : d.termEnv <;> simp [Term.Terminal.default, h, henv]

/-- Witness for C3 at a concrete non-terminal device with `TERM=dumb`. -/
theorem C3_witness :
    Term.devPipe.isTty = false ∧
    Term.Terminal.default Term.devPipe =
      { term_name := Term.devPipe.termEnv.getD "", info := {},
        c_iflags := 0, c_oflags := 0, c_cflags := 0, c_lflags := 0,
        c_cc := List.replicate 32 0, c_line := 0, c_ispeed := 0, c_ospeed := 0,
        alt_buffer := false, cursor_visable := true } :=
  ⟨rfl, C3_default_on_read_failure Term.devPipe rfl⟩

/-- C5 counterexample: no invocation of set_term can select the drain policy
(TCSADRAIN) — the call records the immediate policy TCSANOW for every input,
so the claimed caller-selectable timing argument does not exist on this
operation. -/
theorem C5_counterexample :
    (Term.set_term Term.termA Term.devTty).2.lastAction = some Term.TCSANOW ∧
    ¬ ∃ t d, ((Term.set_term t d).2).lastAction = some Term.TCSADRAIN := by
  refine ⟨rfl, ?_⟩
  rintro ⟨t, d, h⟩
  simp [Term.set_term, Term.tcsetattr, Term.TCSANOW, Term.TCSADRAIN] at h

/-- C5 amended: set_term takes only the snapshot; the three timing policy
constants TCSANOW, TCSADRAIN and TCSAFLUSH are defined and distinct, but
set_term always writes the snapshot under the immediate policy TCSANOW —
no timing argument is exposed to its caller. -/
theorem C5_set_term_always_immediate (t : Term.Terminal) (d : Term.Device) :
    ((Term.set_term t d).2).lastAction = some Term.TCSANOW ∧
    (Term.set_term t d).2.attrs =
      (if d.isTty then t.cast_to_termios else d.attrs) ∧
    Term.TCSANOW ≠ Term.TCSADRAIN ∧ Term.TCSANOW ≠ Term.TCSAFLUSH ∧
    Term.TCSADRAIN ≠ Term.TCSAFLUSH := by
  refine ⟨rfl, rfl, ?_, ?_, ?_⟩ <;> decide

/-- C6: term_size returns a value only when the window-size query succeeded
and both dimensions are strictly positive; the returned pair is exactly
(columns, rows) of the queried winsize, so no returned value has a zero
dimension. -/
theorem C6_term_size_positive (q : Option Term.Winsize) (c r : Nat)
    (h : Term.term_size q = some (c, r)) :
    0 < c ∧ 0 < r ∧ q = some { ws_row := r, ws_col := c } := by
  cases q with
  | none => simp [Term.term_size] at h
  | some s =>
      by_cases hp : s.ws_col > 0 && s.ws_row > 0
      · simp [Term.term_size, hp] at h
        obtain ⟨hc, hr⟩ := h
        have hps := hp
        simp [Bool.and_eq_true, decide_eq_true_eq] at hps
        subst hc
        subst hr
        exact ⟨hps.1, hps.2, rfl⟩
      · simp [Term.term_size, hp] at h

/-- Witness for C6 at a concrete successful 80x24 query. -/
theorem C6_witness :
    Term.term_size (some { ws_row := 24, ws_col := 80 }) = some (80, 24) ∧
    ((0 : Nat) < 80 ∧ (0 : Nat) < 24 ∧
      (some { ws_row := 24, ws_col := 80 } : Option Term.Winsize) =
        some { ws_row := 24, ws_col := 80 }) :=
  ⟨rfl, C6_term_size_positive (some { ws_row := 24, ws_col := 80 }) 80 24 rfl⟩

/-- C7: on a readable terminal, set_flags overwrites exactly the supplied
flag groups among input, output, control and local, keeps every unsupplied
group and every other termios field (control-character table, line byte,
speeds) at its just-read value, and writes back immediately (TCSANOW). -/
theorem C7_set_flags_partial_update (lf ifl ofl cf : Option Nat)
    (u : Term.Termios) (d : Term.Device) (h : d.isTty = true) :
    (Term.set_flags lf ifl ofl cf u d).attrs.c_iflag = ifl.getD d.attrs.c_iflag ∧
    (Term.set_flags lf ifl ofl cf u d).attrs.c_lflag = lf.getD d.attrs.c_lflag ∧
    (Term.set_flags lf ifl ofl cf u d).attrs.c_oflag = ofl.getD d.attrs.c_oflag ∧
    (Term.set_flags lf ifl ofl cf u d).attrs.c_cflag = cf.getD d.attrs.c_cflag ∧
    (Term.set_flags lf ifl ofl cf u d).attrs.c_cc = d.attrs.c_cc ∧
    (Term.set_flags lf ifl ofl cf u d).attrs.c_line = d.attrs.c_line ∧
    (Term.set_flags lf ifl ofl cf u d).attrs.c_ispeed = d.attrs.c_ispeed ∧
    (Term.set_flags lf ifl ofl cf u d).attrs.c_ospeed = d.attrs.c_ospeed ∧
    (Term.set_flags lf ifl ofl cf u d).lastAction = some Term.TCSANOW := by
  cases lf <;> cases ifl <;> cases ofl <;> cases cf <;>
    simp [Term.set_flags, Term.tcsetattr, h]

/-- Witness for C7: supply only the local and output groups on a concrete
terminal device. -/
theorem C7_witness :
    Term.devTty.isTty = true ∧
    ((Term.set_flags (some 11) none (some 13) none Term.uninitA Term.devTty).attrs.c_iflag =
        (none : Option Nat).getD Term.devTty.attrs.c_iflag ∧
     (Term.set_flags (some 11) none (some 13) none Term.uninitA Term.devTty).attrs.c_lflag =
        (some 11 : Option Nat).getD Term.devTty.attrs.c_lflag ∧
     (Term.set_flags (some 11) none (some 13) none Term.uninitA Term.devTty).attrs.c_oflag =
        (some 13 : Option Nat).getD Term.devTty.attrs.c_oflag ∧
     (Term.set_flags (some 11) none (some 13) none Term.uninitA Term.devTty).attrs.c_cflag =
        (none : Option Nat).getD Term.devTty.attrs.c_cflag ∧
     (Term.set_flags (some 11) none (some 13) none Term.uninitA Term.devTty).attrs.c_cc =
        Term.devTty.attrs.c_cc ∧
     (Term.set_flags (some 11) none (some 13) none Term.uninitA Term.devTty).attrs.c_line =
        Term.devTty.attrs.c_line ∧
     (Term.set_flags (some 11) none (some 13) none Term.uninitA Term.devTty).attrs.c_ispeed =
        Term.devTty.attrs.c_ispeed ∧
     (Term.set_flags (some 11) none (some 13) none Term.uninitA Term.devTty).attrs.c_ospeed =
        Term.devTty.attrs.c_ospeed ∧
     (Term.set_flags (some 11) none (some 13) none Term.uninitA Term.devTty).lastAction =
        some Term.TCSANOW) :=
  ⟨rfl, C7_set_flags_partial_update (some 11) none (some 13) none Term.uninitA Term.devTty rfl⟩

/-- Clearing the bits of `m` from a 32-bit word `x` (Rust's `x & !m` on a
`tcflag_t`) is bitwise: a bit of the result is set exactly when the
corresponding bit of `x` is set and that of `m` is not. -/
theorem Term.testBit_land_NOT32 (x m n : Nat) (hx : x < 2 ^ 32) :
    (x &&& Term.NOT32 m).testBit n = (x.testBit n && !(m.testBit n)) := by
  rw [Term.NOT32, Nat.testBit_land, Nat.testBit_xor, Nat.testBit_two_pow_sub_one]
  by_cases hn : n < 32
  · simp [hn]
  · have hxf : x.testBit n = false :=
      Nat.testBit_eq_false_of_lt
        (lt_of_lt_of_le hx (Nat.pow_le_pow_right (by norm_num) (le_of_not_lt hn)))
    simp [hxf]

/-- C2: on a readable terminal, set_raw returns a restore-point carrying the
current flag groups and control-character table, and applies attributes in
which exactly the ICANON, ECHO and ISIG bits are cleared from the local
flags, exactly the IXON bit from the input flags and exactly the OPOST bit
from the output flags, while the applied control-character table, control
flags and line byte are unchanged from the baseline; the write is
immediate (TCSANOW). -/
theorem C2_set_raw_derivation (u : Term.Termios) (d : Term.Device)
    (h : d.isTty = true) (hl : d.attrs.c_lflag < 2 ^ 32)
    (hi : d.attrs.c_iflag < 2 ^ 32) (ho : d.attrs.c_oflag < 2 ^ 32) :
    ((Term.set_raw u d).1.c_iflags = d.attrs.c_iflag ∧
     (Term.set_raw u d).1.c_oflags = d.attrs.c_oflag ∧
     (Term.set_raw u d).1.c_cflags = d.attrs.c_cflag ∧
     (Term.set_raw u d).1.c_lflags = d.attrs.c_lflag ∧
     (Term.set_raw u d).1.c_cc = d.attrs.c_cc) ∧
    (∀ n, ((Term.set_raw u d).2.attrs.c_lflag).testBit n =
        (d.attrs.c_lflag.testBit n &&
          !((Term.ICANON ||| Term.ECHO ||| Term.ISIG).testBit n))) ∧
    (∀ n, ((Term.set_raw u d).2.attrs.c_iflag).testBit n =
        (d.attrs.c_iflag.testBit n && !(Term.IXON.testBit n))) ∧
    (∀ n, ((Term.set_raw u d).2.attrs.c_oflag).testBit n =
        (d.attrs.c_oflag.testBit n && !(Term.OPOST.testBit n))) ∧
    (Term.set_raw u d).2.attrs.c_cc = d.attrs.c_cc ∧
    (Term.set_raw u d).2.attrs.c_cflag = d.attrs.c_cflag ∧
    (Term.set_raw u d).2.attrs.c_line = d.attrs.c_line ∧
    (Term.set_raw u d).2.lastAction = some Term.TCSANOW := by
  refine ⟨?_, ?_, ?_, ?_, ?_, ?_, ?_, ?_⟩
  · simp [Term.set_raw, Term.Terminal.default, h]
  · intro n
    have hb := Term.testBit_land_NOT32 d.attrs.c_lflag
      (Term.ICANON ||| Term.ECHO ||| Term.ISIG) n hl
    simpa [Term.set_raw, Term.tcsetattr, h] using hb
  · intro n
    have hb := Term.testBit_land_NOT32 d.attrs.c_iflag Term.IXON n hi
    simpa [Term.set_raw, Term.tcsetattr, h] using hb
  · intro n
    have hb := Term.testBit_land_NOT32 d.attrs.c_oflag Term.OPOST n ho
    simpa [Term.set_raw, Term.tcsetattr, h] using hb
  · simp [Term.set_raw, Term.tcsetattr, h]
  · simp [Term.set_raw, Term.tcsetattr, h]
  · simp [Term.set_raw, Term.tcsetattr, h]
  · simp [Term.set_raw, Term.tcsetattr, h]

/-- Witness for C2 at a concrete terminal device. -/
theorem C2_witness :
    (Term.devTty.isTty = true ∧
     Term.devTty.attrs.c_lflag < 2 ^ 32 ∧
     Term.devTty.attrs.c_iflag < 2 ^ 32 ∧
     Term.devTty.attrs.c_oflag < 2 ^ 32) ∧
    (((Term.set_raw Term.uninitA Term.devTty).1.c_iflags = Term.devTty.attrs.c_iflag ∧
      (Term.set_raw Term.uninitA Term.devTty).1.c_oflags = Term.devTty.attrs.c_oflag ∧
      (Term.set_raw Term.uninitA Term.devTty).1.c_cflags = Term.devTty.attrs.c_cflag ∧
      (Term.set_raw Term.uninitA Term.devTty).1.c_lflags = Term.devTty.attrs.c_lflag ∧
      (Term.set_raw Term.uninitA Term.devTty).1.c_cc = Term.devTty.attrs.c_cc) ∧
     (∀ n, ((Term.set_raw Term.uninitA Term.devTty).2.attrs.c_lflag).testBit n =
         (Term.devTty.attrs.c_lflag.testBit n &&
           !((Term.ICANON ||| Term.ECHO ||| Term.ISIG).testBit n))) ∧
     (∀ n, ((Term.set_raw Term.uninitA Term.devTty).2.attrs.c_iflag).testBit n =
         (Term.devTty.attrs.c_iflag.testBit n && !(Term.IXON.testBit n))) ∧
     (∀ n, ((Term.set_raw Term.uninitA Term.devTty).2.attrs.c_oflag).testBit n =
         (Term.devTty.attrs.c_oflag.testBit n && !(Term.OPOST.testBit n))) ∧
     (Term.set_raw Term.uninitA Term.devTty).2.attrs.c_cc = Term.devTty.attrs.c_cc ∧
     (Term.set_raw Term.uninitA Term.devTty).2.attrs.c_cflag = Term.devTty.attrs.c_cflag ∧
     (Term.set_raw Term.uninitA Term.devTty).2.attrs.c_line = Term.devTty.attrs.c_line ∧
     (Term.set_raw Term.uninitA Term.devTty).2.lastAction = some Term.TCSANOW) :=
  ⟨⟨rfl, by decide, by decide, by decide⟩,
   C2_set_raw_derivation Term.uninitA Term.devTty rfl (by decide) (by decide) (by decide)⟩

/-- C1: on a terminal whose attributes are readable, applying set_term to the
snapshot returned by set_raw brings the device's line-discipline
configuration back, bit-for-bit in all four flag groups, the
control-character table, the line byte and both speeds, to exactly what it
was immediately before set_raw. -/
theorem C1_enter_raw_then_restore (u : Term.Termios) (d : Term.Device)
    (h : d.isTty = true) :
    (Term.set_term (Term.set_raw u d).1 (Term.set_raw u d).2).2.attrs = d.attrs := by
  obtain ⟨tty, attrs, env, la⟩ := d
  subst h
  obtain ⟨i, o, c, l, ln, cc, isp, osp⟩ := attrs
  simp [Term.set_term, Term.set_raw, Term.tcsetattr, Term.Terminal.default,
    Term.Terminal.cast_to_termios]

/-- Witness for C1 at a concrete terminal device. -/
theorem C1_witness :
    Term.devTty.isTty = true ∧
    (Term.set_term (Term.set_raw Term.uninitA Term.devTty).1
        (Term.set_raw Term.uninitA Term.devTty).2).2.attrs = Term.devTty.attrs :=
  ⟨rfl, C1_enter_raw_then_restore Term.uninitA Term.devTty rfl⟩
